import Mathlib

/-!
Shallow embedding of the baronette-api user-account core: the credential
store (the user model layer) and the authentication workflow (the user
controller), with the verification of the specified properties.

The relational store is embedded as a list of `user_list` rows plus a list
of `admin_list` user ids; each SQL statement of the model layer is
translated to the corresponding pure operation on those lists.  A fallible
round-trip to the store is an `Except` input where the source catches
query errors.
-/

namespace Baronette

/-- A value of the `user_password` column.  The source persists either the
string produced by `bcrypt.hash` or, in principle, any plain string; bcrypt
hash strings have a rigid format and never coincide with a plaintext
password, which the dedicated `hashed` constructor captures: the two
constructors are distinct values, exactly as the hash string differs from
every plaintext. -/
inductive StoredPw where
  | raw (s : String)
  | hashed (cost : Nat) (salt : String) (plaintext : String)
deriving DecidableEq, Repr

/-- Modelled from the spec: `bcrypt.hash(plaintext, cost)` computes a salted
one-way hash with the given cost; the salt is randomised per call by bcrypt,
so it is passed explicitly here.  One-wayness itself is outside the model;
what the model keeps is that the result is opaque hash material carrying the
salt, never the plaintext as a directly comparable string. -/
def bcryptHash (plaintext : String) (cost : Nat) (salt : String) : StoredPw :=
  StoredPw.hashed cost salt plaintext

/-- Modelled from the spec: `bcrypt.compare(plaintext, stored)` is the
one-way hash comparison primitive: true exactly when `stored` is a bcrypt
hash of `plaintext`; comparing against a value that is not a bcrypt hash
yields false. -/
def bcryptCompare (plaintext : String) (stored : StoredPw) : Bool :=
  match stored with
  | StoredPw.raw _ => false
  | StoredPw.hashed _ _ p => plaintext == p

/-- One row of `public.user_list`, with the columns the source reads and
writes. -/
structure User where
  id : Nat
  first_name : String
  last_name_1 : String
  last_name_2 : String
  username : String
  user_password : StoredPw
  email : String
  verified : Bool
deriving DecidableEq, Repr

/-- Lookup by username: `SELECT * FROM public.user_list WHERE username = $1`,
returning `result.rows[0] || null`. -/
def findUserByUsername (db : List User) (username : String) : Option User :=
  (db.filter fun u => u.username == username).head?

/-- Lookup by email: `SELECT * FROM public.user_list WHERE email = $1`,
returning `result.rows[0] || null`. -/
def findUserByEmail (db : List User) (email : String) : Option User :=
  (db.filter fun u => u.email == email).head?

/-- Admin membership check of the model layer:
`SELECT * FROM public.admin_list WHERE user_id = $1`, answering
`result.rows.length > 0`; a failed query round-trip (the `Except.error`
input) is caught and rethrown as `'Database query error'`. -/
def checkIfAdmin (adminDb : Except Unit (List Nat)) (user_id : Nat) :
    Except String Bool :=
  match adminDb with
  | Except.error _ => Except.error "Database query error"
  | Except.ok adminList =>
      Except.ok (decide (0 < (adminList.filter fun r => r == user_id).length))

/-- The six fields `createUser` destructures from its `userData` argument:
`first_name, last_name_1, last_name_2, username, user_password, email`
(surname keys with an underscore before the digit). -/
structure NewUserData where
  first_name : String
  last_name_1 : String
  last_name_2 : String
  username : String
  user_password : String
  email : String
deriving DecidableEq, Repr

/-- User creation: hashes the plaintext with `bcrypt.hash(user_password, 10)`
and inserts one row listing exactly the six destructured columns.  The
`verified` column is absent from the INSERT column list; modelled from the
spec: the table schema (not part of the model layer) defaults `verified` to
false at creation.  `salt` is the salt bcrypt draws for this call and
`nextId` the id the store assigns to the new row. -/
def createUser (db : List User) (userData : NewUserData) (salt : String)
    (nextId : Nat) : List User :=
  let hashedPassword := bcryptHash userData.user_password 10 salt
  db ++ [{ id := nextId
           first_name := userData.first_name
           last_name_1 := userData.last_name_1
           last_name_2 := userData.last_name_2
           username := userData.username
           user_password := hashedPassword
           email := userData.email
           verified := false }]

/-- Administrative batch verification:
`UPDATE public.user_list SET verified = TRUE WHERE username = ANY($1)`.
Rows whose username is in the array get `verified := true`; every other row
is untouched; a username matching no row simply affects nothing, the UPDATE
itself succeeds. -/
def verifyUsers (db : List User) (usernames : List String) : List User :=
  db.map fun u =>
    if usernames.contains u.username then { u with verified := true } else u

/-- Deletion by id: `DELETE FROM public.user_list WHERE id = $1`; the result
is the remaining rows (the affected-row count is the length difference). -/
def deleteUserById (db : List User) (userId : Nat) : List User :=
  db.filter fun u => !(u.id == userId)

/-- Reading a property of a JS object modelled as key/value pairs: an absent
key reads as undefined, giving `none`; a key bound to null is likewise
modelled by its absence from the list, since the SQL layer treats both as
the null parameter. -/
def jsGet (obj : List (String × String)) (key : String) : Option String :=
  (obj.find? fun kv => kv.fst == key).map fun kv => kv.snd

/-- The SET clause of `updateUserById` applied to one matching row:
`first_name = COALESCE($1, first_name)`, `last_name_1 = COALESCE($2,
last_name_1)`, `last_name_2 = COALESCE($3, last_name_2)`, `email =
COALESCE($4, email)`, `verified = false`, where the four parameters are
destructured from `updatedInfo` under the keys `first_name, last_name1,
last_name2, email` (no underscore before the digit in the surname keys). -/
def applyProfileUpdate (updatedInfo : List (String × String)) (u : User) :
    User :=
  { u with
    first_name := (jsGet updatedInfo "first_name").getD u.first_name
    last_name_1 := (jsGet updatedInfo "last_name1").getD u.last_name_1
    last_name_2 := (jsGet updatedInfo "last_name2").getD u.last_name_2
    email := (jsGet updatedInfo "email").getD u.email
    verified := false }

/-- Profile update: `UPDATE public.user_list SET ... WHERE id = $5`, the SET
clause being `applyProfileUpdate`; rows with a different id are untouched. -/
def updateUserById (db : List User) (userId : Nat)
    (updatedInfo : List (String × String)) : List User :=
  db.map fun u =>
    if u.id == userId then applyProfileUpdate updatedInfo u else u

/-- Password verification of the model layer:
`bcrypt.compare(password, hashedPassword)`. -/
def verifyPassword (password : String) (hashedPassword : StoredPw) : Bool :=
  bcryptCompare password hashedPassword

/-- Password change: hashes the new plaintext with `bcrypt.hash(newPassword,
10)` and runs `UPDATE public.user_list SET user_password = $1 WHERE id = $2`;
no other column appears in the SET clause. -/
def updatePassword (db : List User) (userId : Nat) (newPassword : String)
    (salt : String) : List User :=
  let hashedPassword := bcryptHash newPassword 10 salt
  db.map fun u =>
    if u.id == userId then { u with user_password := hashedPassword } else u

/-- The request body `{ username, password }` of a login request. -/
structure LoginRequest where
  username : String
  password : String
deriving DecidableEq, Repr

/-- Events the login controller writes with `console.log`: the first logs
the whole request body, the second the success message carrying the
username. -/
inductive LogEvent where
  | loginRequestReceived (body : LoginRequest)
  | loginSuccess (username : String)
deriving DecidableEq, Repr

/-- The four caller-facing outcomes of `loginUser` (HTTP 404, 401, 403 and
200 with the user id). -/
inductive LoginOutcome where
  | UserNotFound
  | InvalidPassword
  | NotVerified
  | Success (user_id : Nat)
deriving DecidableEq, Repr

/-- Outcome and console log of one `loginUser` invocation. -/
structure LoginResult where
  outcome : LoginOutcome
  log : List LogEvent
deriving DecidableEq, Repr

/-- The login controller: logs the request body, looks the user up by
username (absent gives 404), binds `isPasswordValid` to the plaintext
equality `user.user_password === password` (401 when it fails), then checks
`user.verified` (403 when false), and otherwise logs success and answers 200
with `user.id`. -/
def loginUser (db : List User) (req : LoginRequest) : LoginResult :=
  let log := [LogEvent.loginRequestReceived req]
  match findUserByUsername db req.username with
  | none => { outcome := LoginOutcome.UserNotFound, log := log }
  | some user =>
    let isPasswordValid := user.user_password == StoredPw.raw req.password
    if !isPasswordValid then
      { outcome := LoginOutcome.InvalidPassword, log := log }
    else if !user.verified then
      { outcome := LoginOutcome.NotVerified, log := log }
    else
      { outcome := LoginOutcome.Success user.id
        log := log ++ [LogEvent.loginSuccess req.username] }

/-- The three caller-facing outcomes of the admin check: 200 as admin, 200
as regular user, 500 on a storage failure. -/
inductive AdminOutcome where
  | IsAdmin
  | IsRegularUser
  | StorageError
deriving DecidableEq, Repr

/-- The admin-check controller: calls `checkIfAdmin`; a thrown storage error
is caught and answered as the distinct 500 outcome. -/
def checkAdmin (adminDb : Except Unit (List Nat)) (user_id : Nat) :
    AdminOutcome :=
  match checkIfAdmin adminDb user_id with
  | Except.ok true => AdminOutcome.IsAdmin
  | Except.ok false => AdminOutcome.IsRegularUser
  | Except.error _ => AdminOutcome.StorageError

/-- Observation on a console log: whether some entry carries the given
plaintext password (the request-body entry does exactly when its password
field equals it). -/
def logHasPassword (log : List LogEvent) (p : String) : Bool :=
  log.any fun e =>
    match e with
    | LogEvent.loginRequestReceived body => body.password == p
    | _ => false

/-- A concrete one-row store used to evaluate the verified properties on
explicit inputs. -/
def sampleDb : List User :=
  [{ id := 1, first_name := "Alice", last_name_1 := "A", last_name_2 := "B",
     username := "alice", user_password := StoredPw.raw "pw",
     email := "alice@example.com", verified := true }]

/-! Helper lemmas about conditional per-row updates of the store. -/

/-- Looking up a key bound by no pair of the object gives none. -/
lemma jsGet_eq_none_of_keys (info : List (String × String)) (key : String)
    (h : ∀ kv ∈ info, kv.fst ≠ key) : jsGet info key = none := by
  induction info with
  | nil => rfl
  | cons kv rest ih =>
    have h0 : (kv.fst == key) = false := by
      simp [h kv (List.mem_cons_self kv rest)]
    have hr := ih fun kv2 hm => h kv2 (List.mem_cons_of_mem kv hm)
    simp only [jsGet, List.find?_cons, h0] at hr ⊢
    exact hr

/-- Projecting an update that touches only rows satisfying `c`: when the
per-row update `f` preserves the projection `proj`, the projected store is
unchanged. -/
lemma map_ite_proj {α : Type} (db : List User) (c : User → Bool)
    (f : User → User) (proj : User → α) (h : ∀ u : User, proj (f u) = proj u) :
    ((db.map fun u => if c u then f u else u).map proj) = db.map proj := by
  induction db with
  | nil => rfl
  | cons v vs ih =>
    simp only [List.map_cons, ih]
    by_cases hc : c v = true <;> simp [hc, h]

/-- Projecting an update that touches only rows satisfying `c`, in general:
the projected result applies `proj ∘ f` on matching rows and `proj`
elsewhere. -/
lemma map_ite_proj_changed {α : Type} (db : List User) (c : User → Bool)
    (f : User → User) (proj : User → α) :
    ((db.map fun u => if c u then f u else u).map proj)
      = db.map fun u => if c u then proj (f u) else proj u := by
  induction db with
  | nil => rfl
  | cons v vs ih =>
    simp only [List.map_cons, ih]
    by_cases hc : c v = true <;> simp [hc]

/-- Surname columns survive a profile update whose input binds neither of
the keys the update reads (`last_name1`, `last_name2`). -/
lemma updateUserById_surnames_fixed (db : List User) (userId : Nat)
    (info : List (String × String))
    (h1 : jsGet info "last_name1" = none)
    (h2 : jsGet info "last_name2" = none) :
    ((updateUserById db userId info).map fun u =>
        (u.last_name_1, u.last_name_2))
      = db.map fun u => (u.last_name_1, u.last_name_2) := by
  refine map_ite_proj db _ _ _ fun u => ?_
  simp [applyProfileUpdate, h1, h2]

/-- C1: the claim fails on the source.  For a user whose stored
`user_password` is the bcrypt hash of "correct" — exactly what `createUser`
persists — the hash comparison primitive accepts the submitted password
"correct", yet `loginUser` answers `InvalidPassword`, because it compares
the stored hash against the plaintext with direct equality instead of
calling the compare primitive. -/
theorem loginUser_plaintext_equality :
    verifyPassword "correct" (bcryptHash "correct" 10 "saltA") = true
    ∧ (loginUser
        [{ id := 1, first_name := "Alice", last_name_1 := "A",
           last_name_2 := "B", username := "alice",
           user_password := bcryptHash "correct" 10 "saltA",
           email := "alice@example.com", verified := true }]
        { username := "alice", password := "correct" }).outcome
      = LoginOutcome.InvalidPassword := by
  constructor <;> rfl

/-- C2: login decides in the fixed order — absent user gives `UserNotFound`;
otherwise a failing password check gives `InvalidPassword`; otherwise an
unset verified flag gives `NotVerified`; otherwise `Success` with the user's
id.  The verified check is reached only after the password check succeeds. -/
theorem loginUser_decision_order (db : List User) (req : LoginRequest) :
    (findUserByUsername db req.username = none →
      (loginUser db req).outcome = LoginOutcome.UserNotFound)
    ∧ ∀ user, findUserByUsername db req.username = some user →
        ((user.user_password == StoredPw.raw req.password) = false →
          (loginUser db req).outcome = LoginOutcome.InvalidPassword)
        ∧ ((user.user_password == StoredPw.raw req.password) = true →
            user.verified = false →
            (loginUser db req).outcome = LoginOutcome.NotVerified)
        ∧ ((user.user_password == StoredPw.raw req.password) = true →
            user.verified = true →
            (loginUser db req).outcome = LoginOutcome.Success user.id) := by
  constructor
  · intro h
    simp [loginUser, h]
  · intro user h
    refine ⟨fun hpw => ?_, fun hpw hv => ?_, fun hpw hv => ?_⟩
    · simp [loginUser, h, hpw]
    · simp [loginUser, h, hpw, hv]
    · simp [loginUser, h, hpw, hv]

/-- Witness for C2 at the spec's carol scenario: the stored password value
matches the submitted one, the account is unverified, and the outcome is
`NotVerified`, not `Success`. -/
theorem loginUser_decision_order_witness :
    (loginUser
      [{ id := 3, first_name := "Carol", last_name_1 := "C",
         last_name_2 := "D", username := "carol",
         user_password := StoredPw.raw "pw123",
         email := "carol@example.com", verified := false }]
      { username := "carol", password := "pw123" }).outcome
    = LoginOutcome.NotVerified :=
  ((loginUser_decision_order _ _).2
    { id := 3, first_name := "Carol", last_name_1 := "C",
      last_name_2 := "D", username := "carol",
      user_password := StoredPw.raw "pw123",
      email := "carol@example.com", verified := false }
    (by decide)).2.1 (by decide) rfl

/-- C3: the creation half of the claim holds — `createUser` persists the
bcrypt hash, not the plaintext — but the logging half fails on the source:
`loginUser` logs the whole request body, plaintext password included, so
the evaluated log carries "hunter2". -/
theorem loginUser_logs_plaintext_password :
    ((createUser []
        { first_name := "Ana", last_name_1 := "A", last_name_2 := "B",
          username := "ana", user_password := "hunter2",
          email := "ana@example.com" } "saltB" 7).map fun u =>
        u.user_password)
      = [bcryptHash "hunter2" 10 "saltB"]
    ∧ logHasPassword
        (loginUser [] { username := "ana", password := "hunter2" }).log
        "hunter2" = true := by
  constructor <;> rfl

/-- C4: every row `createUser` adds to the store has `verified = false`,
regardless of the input data, salt and id. -/
theorem createUser_verified_false (db : List User) (userData : NewUserData)
    (salt : String) (nextId : Nat) (u : User)
    (hu : u ∈ createUser db userData salt nextId) :
    u ∈ db ∨ u.verified = false := by
  simp only [createUser, List.mem_append, List.mem_singleton] at hu
  rcases hu with h | h
  · exact Or.inl h
  · right
    subst h
    rfl

/-- Witness for C4: the row created from Ana's data in an empty store is the
new row and its verified flag is false. -/
theorem createUser_verified_false_witness :
    ({ id := 7, first_name := "Ana", last_name_1 := "A", last_name_2 := "B",
       username := "ana", user_password := bcryptHash "hunter2" 10 "saltB",
       email := "ana@example.com", verified := false } : User)
      ∈ ([] : List User)
    ∨ User.verified
        { id := 7, first_name := "Ana", last_name_1 := "A",
          last_name_2 := "B", username := "ana",
          user_password := bcryptHash "hunter2" 10 "saltB",
          email := "ana@example.com", verified := false } = false :=
  createUser_verified_false []
    { first_name := "Ana", last_name_1 := "A", last_name_2 := "B",
      username := "ana", user_password := "hunter2",
      email := "ana@example.com" } "saltB" 7 _ (by decide)

/-- C5: after `updateUserById`, every stored row carrying the targeted id
has `verified = false`, whatever the partial-fields input — including an
input that changes no field value. -/
theorem updateUserById_resets_verified (db : List User) (userId : Nat)
    (updatedInfo : List (String × String)) (u : User)
    (hu : u ∈ updateUserById db userId updatedInfo) (hid : u.id = userId) :
    u.verified = false := by
  simp only [updateUserById, List.mem_map] at hu
  obtain ⟨v, hv, h⟩ := hu
  by_cases hc : v.id = userId
  · rw [← h]
    simp [hc, applyProfileUpdate]
  · rw [← h] at hid
    simp [hc] at hid

/-- Witness for C5: updating verified Alice's profile with an empty change
set leaves her row with verified = false. -/
theorem updateUserById_resets_verified_witness :
    User.verified
      { id := 1, first_name := "Alice", last_name_1 := "A",
        last_name_2 := "B", username := "alice",
        user_password := StoredPw.raw "pw", email := "alice@example.com",
        verified := false } = false :=
  updateUserById_resets_verified
    [{ id := 1, first_name := "Alice", last_name_1 := "A",
       last_name_2 := "B", username := "alice",
       user_password := StoredPw.raw "pw", email := "alice@example.com",
       verified := true }] 1 [] _ (by decide) rfl

/-- C6: verifyUsers sets verified to true exactly on the rows whose username
is in the given list and changes no other column of any row; the operation
is total in the store, so usernames matching no row cause no error, they
merely verify nothing. -/
theorem verifyUsers_sets_verified (db : List User)
    (usernames : List String) :
    ((verifyUsers db usernames).map fun u =>
        (u.id, u.first_name, u.last_name_1, u.last_name_2, u.username,
         u.user_password, u.email))
      = (db.map fun u =>
        (u.id, u.first_name, u.last_name_1, u.last_name_2, u.username,
         u.user_password, u.email))
    ∧ ((verifyUsers db usernames).map fun u => u.verified)
      = db.map fun u =>
          if usernames.contains u.username then true else u.verified := by
  constructor
  · exact map_ite_proj db _ _ _ fun u => rfl
  · exact map_ite_proj_changed db _ _ _

/-- C7: the admin check answers IsAdmin exactly when the store round-trip
succeeded and the userId is in the admin relation, IsRegularUser exactly
when it succeeded and the userId is absent, and StorageError on a failed
round-trip — a storage failure is never reported as IsRegularUser. -/
theorem checkAdmin_classification (adminDb : Except Unit (List Nat))
    (uid : Nat) :
    (checkAdmin adminDb uid = AdminOutcome.IsAdmin ↔
      ∃ l, adminDb = Except.ok l ∧ uid ∈ l)
    ∧ (checkAdmin adminDb uid = AdminOutcome.IsRegularUser ↔
      ∃ l, adminDb = Except.ok l ∧ uid ∉ l)
    ∧ (∀ e : Unit, adminDb = Except.error e →
        checkAdmin adminDb uid = AdminOutcome.StorageError) := by
  cases adminDb with
  | error e => simp [checkAdmin, checkIfAdmin]
  | ok l =>
    have hmem : (0 < (l.filter fun r => r == uid).length) ↔ uid ∈ l := by
      constructor
      · intro hpos
        rw [List.length_pos] at hpos
        obtain ⟨a, ha⟩ := List.exists_mem_of_ne_nil _ hpos
        have hf := List.mem_filter.1 ha
        have : a = uid := by simpa using hf.2
        rw [← this]
        exact hf.1
      · intro hin
        rw [List.length_pos]
        intro hnil
        have : uid ∈ l.filter fun r => r == uid :=
          List.mem_filter.2 ⟨hin, by simp⟩
        rw [hnil] at this
        exact absurd this (List.not_mem_nil uid)
    by_cases h : uid ∈ l
    · have hd : decide (0 < (l.filter fun r => r == uid).length) = true :=
        decide_eq_true (hmem.2 h)
      simp [checkAdmin, checkIfAdmin, hd, h]
    · have hd : decide (0 < (l.filter fun r => r == uid).length) = false :=
        decide_eq_false fun hp => h (hmem.1 hp)
      simp [checkAdmin, checkIfAdmin, hd, h]

/-- Witness for C7: a failed admin-list query is answered as StorageError. -/
theorem checkAdmin_classification_witness :
    checkAdmin (Except.error ()) 0 = AdminOutcome.StorageError :=
  (checkAdmin_classification (Except.error ()) 0).2.2 () rfl

/-- C8: the profile update never touches id, username or the password hash,
and for each of the four coalesced columns an absent (or null) input field
leaves the stored column unchanged in every row. -/
theorem updateUserById_coalesce_frame (db : List User) (userId : Nat)
    (info : List (String × String)) :
    ((updateUserById db userId info).map fun u =>
        (u.id, u.username, u.user_password))
      = (db.map fun u => (u.id, u.username, u.user_password))
    ∧ (jsGet info "first_name" = none →
        ((updateUserById db userId info).map fun u => u.first_name)
          = db.map fun u => u.first_name)
    ∧ (jsGet info "last_name1" = none →
        ((updateUserById db userId info).map fun u => u.last_name_1)
          = db.map fun u => u.last_name_1)
    ∧ (jsGet info "last_name2" = none →
        ((updateUserById db userId info).map fun u => u.last_name_2)
          = db.map fun u => u.last_name_2)
    ∧ (jsGet info "email" = none →
        ((updateUserById db userId info).map fun u => u.email)
          = db.map fun u => u.email) := by
  refine ⟨map_ite_proj db _ _ _ fun u => rfl, fun h => ?_, fun h => ?_,
    fun h => ?_, fun h => ?_⟩ <;>
  · refine map_ite_proj db _ _ _ fun u => ?_
    simp [applyProfileUpdate, h]

/-- Witness for C8: an update whose input binds none of the four read keys
leaves each of the four columns of the sample store unchanged. -/
theorem updateUserById_coalesce_frame_witness :
    ((updateUserById sampleDb 1 [("unrelated", "x")]).map fun u =>
        u.first_name) = sampleDb.map (fun u => u.first_name)
    ∧ ((updateUserById sampleDb 1 [("unrelated", "x")]).map fun u =>
        u.last_name_1) = sampleDb.map (fun u => u.last_name_1)
    ∧ ((updateUserById sampleDb 1 [("unrelated", "x")]).map fun u =>
        u.last_name_2) = sampleDb.map (fun u => u.last_name_2)
    ∧ ((updateUserById sampleDb 1 [("unrelated", "x")]).map fun u =>
        u.email) = sampleDb.map (fun u => u.email) :=
  ⟨(updateUserById_coalesce_frame sampleDb 1 [("unrelated", "x")]).2.1
      (by decide),
   (updateUserById_coalesce_frame sampleDb 1 [("unrelated", "x")]).2.2.1
      (by decide),
   (updateUserById_coalesce_frame sampleDb 1 [("unrelated", "x")]).2.2.2.1
      (by decide),
   (updateUserById_coalesce_frame sampleDb 1 [("unrelated", "x")]).2.2.2.2
      (by decide)⟩

/-- C9: the password change rewrites exactly the matching row's
user_password column to the new bcrypt hash and leaves every other column
of every row — the verified flag in particular — unchanged. -/
theorem updatePassword_frame (db : List User) (userId : Nat)
    (newPassword salt : String) :
    ((updatePassword db userId newPassword salt).map fun u =>
        (u.id, u.first_name, u.last_name_1, u.last_name_2, u.username,
         u.email, u.verified))
      = (db.map fun u =>
        (u.id, u.first_name, u.last_name_1, u.last_name_2, u.username,
         u.email, u.verified))
    ∧ ((updatePassword db userId newPassword salt).map fun u =>
        u.user_password)
      = db.map fun u =>
          if u.id == userId then bcryptHash newPassword 10 salt
          else u.user_password := by
  constructor
  · exact map_ite_proj db _ _ _ fun u => rfl
  · exact map_ite_proj_changed db _ _ _

/-- C10: the profile update reads the surname inputs under the keys
last_name1 and last_name2, so an input that supplies surnames only under
the creation-time keys last_name_1 and last_name_2 is read as absent on
both, and the stored surname columns of every row stay unchanged. -/
theorem updateUserById_surname_key_mismatch (db : List User) (userId : Nat)
    (info : List (String × String))
    (hkeys : ∀ kv ∈ info, kv.fst = "last_name_1" ∨ kv.fst = "last_name_2") :
    jsGet info "last_name1" = none
    ∧ jsGet info "last_name2" = none
    ∧ ((updateUserById db userId info).map fun u =>
        (u.last_name_1, u.last_name_2))
      = db.map fun u => (u.last_name_1, u.last_name_2) := by
  have h1 : jsGet info "last_name1" = none := by
    refine jsGet_eq_none_of_keys info _ fun kv hm => ?_
    rcases hkeys kv hm with h | h <;> rw [h] <;> decide
  have h2 : jsGet info "last_name2" = none := by
    refine jsGet_eq_none_of_keys info _ fun kv hm => ?_
    rcases hkeys kv hm with h | h <;> rw [h] <;> decide
  exact ⟨h1, h2, updateUserById_surnames_fixed db userId info h1 h2⟩

/-- Witness for C10: surnames supplied under the creation-time keys are
invisible to the update and the sample store's surname columns survive. -/
theorem updateUserById_surname_key_mismatch_witness :
    jsGet [("last_name_1", "Garcia"), ("last_name_2", "Lopez")]
      "last_name1" = none
    ∧ jsGet [("last_name_1", "Garcia"), ("last_name_2", "Lopez")]
      "last_name2" = none
    ∧ ((updateUserById sampleDb 1
          [("last_name_1", "Garcia"), ("last_name_2", "Lopez")]).map fun u =>
        (u.last_name_1, u.last_name_2))
      = sampleDb.map fun u => (u.last_name_1, u.last_name_2) :=
  updateUserById_surname_key_mismatch sampleDb 1
    [("last_name_1", "Garcia"), ("last_name_2", "Lopez")] (by decide)

end Baronette
